import Mathlib

/-!
# RelayMCP — verification of the tool-serving shim

Shallow embedding of `src/auth.py`, `src/models.py` and `src/tools.py`.

The two endpoints `check_status` and `post_status` build one outbound HTTP
request, hand it to `httpx`, and translate the outcome (a response, a
connection error, a timeout, or any other exception) into a Python dict via
the pydantic models of `src/models.py`.  We model JSON values with `Json`,
the outcome of the single outbound call with `HttpOutcome`, Python
exceptions that can propagate with `PyExn`, and each endpoint as a pure
function from its arguments and the outcome of the call to
`Except PyExn Json` (`.error` = the exception escapes to the caller).
Exception message texts are abstracted to fixed strings per exception
class; the claims only ever compare whole messages, never their content.
-/

/-- JSON values as delivered by `resp.json()` / produced by `model_dump()`.
Numbers are modelled as rationals. -/
inductive Json where
  | null
  | bool (b : Bool)
  | num (q : Rat)
  | str (s : String)
  | arr (elems : List Json)
  | obj (fields : List (String × Json))
deriving Repr

/-- First binding of key `k` in an object's field list (Python dicts from
JSON have no duplicate keys, so first = only). -/
def jlookup : List (String × Json) → String → Option Json
  | [], _ => none
  | (k', v) :: rest, k => if k' = k then some v else jlookup rest k

/-- `k in d` for a JSON object's field list. -/
def hasKey (fields : List (String × Json)) (k : String) : Bool :=
  (jlookup fields k).isSome

/-! ## `src/auth.py` -/

/-- `AuthenticatedUser` dataclass from `src/auth.py`. -/
structure AuthenticatedUser where
  login : String
  name : String := "Unknown"
  email : String := "unknown@example.com"
deriving Repr, DecidableEq

/-- `get_user_from_username` from `src/auth.py`: wraps the caller-supplied
username unchanged. -/
def get_user_from_username (username : String) : AuthenticatedUser :=
  { login := username }

/-! ## `src/models.py` -/

/-- `OrchestrationAction(str, Enum)` from `src/models.py`. -/
inductive OrchestrationAction where
  | PULL
  | PUSH
  | WAIT
  | SWITCH_TASK
  | STOP
  | PROCEED
deriving Repr, DecidableEq

/-- The string value of an `OrchestrationAction` member. -/
def OrchestrationAction.val : OrchestrationAction → String
  | .PULL => "PULL"
  | .PUSH => "PUSH"
  | .WAIT => "WAIT"
  | .SWITCH_TASK => "SWITCH_TASK"
  | .STOP => "STOP"
  | .PROCEED => "PROCEED"

/-- Enum lookup `OrchestrationAction(s)` used by pydantic validation. -/
def parseAction : String → Option OrchestrationAction
  | "PULL" => some .PULL
  | "PUSH" => some .PUSH
  | "WAIT" => some .WAIT
  | "SWITCH_TASK" => some .SWITCH_TASK
  | "STOP" => some .STOP
  | "PROCEED" => some .PROCEED
  | _ => none

/-- `OrchestrationCommand` pydantic model.  `type` is
`Literal["orchestration_command"]` with that default; `metadata` is an
optional JSON object (`Dict[str, Any]`). -/
structure OrchestrationCommand where
  type : String := "orchestration_command"
  action : OrchestrationAction
  command : Option String := none
  reason : String
  metadata : Option (List (String × Json)) := none
deriving Repr

/-- `LockEntry` pydantic model.  `status` ranges over
`"READING" | "WRITING"`, `lock_type` over `"DIRECT" | "NEIGHBOR"`;
both are kept as strings constrained by validation. -/
structure LockEntry where
  user : String
  status : String
  lock_type : String
  timestamp : Rat
  message : Option String := none
deriving Repr

/-- `CheckStatusResponse` pydantic model.  `status` ranges over
`"OK" | "STALE" | "CONFLICT" | "OFFLINE"`; `locks` is a dict of
`LockEntry`, modelled as an insertion-ordered association list. -/
structure CheckStatusResponse where
  status : String
  repo_head : String
  locks : List (String × LockEntry)
  warnings : List String
  orchestration : Option OrchestrationCommand := none
deriving Repr

/-- `PostStatusResponse` pydantic model. -/
structure PostStatusResponse where
  success : Bool
  orphaned_dependencies : List String := []
  orchestration : Option OrchestrationCommand := none
deriving Repr

/-! ### Validation (`Model(**data)`)

pydantic validation of the deserialized JSON body: a missing optional
field takes its default, `null` maps to `None`, a missing required field
or an ill-typed value raises, and keys outside the schema are ignored. -/

/-- A required `str` field. -/
def reqStr (fs : List (String × Json)) (k : String) : Option String :=
  match jlookup fs k with
  | some (.str s) => some s
  | _ => none

/-- A required `str` field further constrained to a `Literal` set. -/
def reqStrIn (fs : List (String × Json)) (k : String) (allowed : List String) :
    Option String :=
  (reqStr fs k).bind fun s => if s ∈ allowed then some s else none

/-- An `Optional[str] = None` field: absent or `null` gives `None`. -/
def optStr (fs : List (String × Json)) (k : String) : Option (Option String) :=
  match jlookup fs k with
  | none => some none
  | some .null => some none
  | some (.str s) => some (some s)
  | some _ => none

/-- A required `float` field. -/
def reqNum (fs : List (String × Json)) (k : String) : Option Rat :=
  match jlookup fs k with
  | some (.num q) => some q
  | _ => none

/-- A required `bool` field. -/
def reqBool (fs : List (String × Json)) (k : String) : Option Bool :=
  match jlookup fs k with
  | some (.bool b) => some b
  | _ => none

/-- An `Optional[Dict[str, Any]] = None` field. -/
def optObjFields (fs : List (String × Json)) (k : String) :
    Option (Option (List (String × Json))) :=
  match jlookup fs k with
  | none => some none
  | some .null => some none
  | some (.obj mfs) => some (some mfs)
  | some _ => none

/-- The `type: Literal["orchestration_command"] = "orchestration_command"`
field: absent gives the default, present must equal the literal. -/
def parseTypeField (fs : List (String × Json)) : Option String :=
  match jlookup fs "type" with
  | none => some "orchestration_command"
  | some (.str s) => if s = "orchestration_command" then some s else none
  | some _ => none

/-- Validate an `OrchestrationCommand` from a JSON value. -/
def parseOrch (j : Json) : Option OrchestrationCommand :=
  match j with
  | .obj fs =>
    (parseTypeField fs).bind fun typ =>
    (reqStr fs "action").bind fun av =>
    (parseAction av).bind fun action =>
    (optStr fs "command").bind fun command =>
    (reqStr fs "reason").bind fun reason =>
    (optObjFields fs "metadata").bind fun metadata =>
    some { type := typ, action := action, command := command,
           reason := reason, metadata := metadata }
  | _ => none

/-- Validate a `LockEntry` from a JSON value. -/
def parseLockEntry (j : Json) : Option LockEntry :=
  match j with
  | .obj fs =>
    (reqStr fs "user").bind fun user =>
    (reqStrIn fs "status" ["READING", "WRITING"]).bind fun status =>
    (reqStrIn fs "lock_type" ["DIRECT", "NEIGHBOR"]).bind fun lock_type =>
    (reqNum fs "timestamp").bind fun timestamp =>
    (optStr fs "message").bind fun message =>
    some { user := user, status := status, lock_type := lock_type,
           timestamp := timestamp, message := message }
  | _ => none

/-- Validate each value of the `locks` dict as a `LockEntry`. -/
def parseLocksList : List (String × Json) → Option (List (String × LockEntry))
  | [] => some []
  | (k, v) :: rest =>
    (parseLockEntry v).bind fun e =>
    (parseLocksList rest).bind fun es =>
    some ((k, e) :: es)

/-- Validate `List[str]`. -/
def parseStrList : List Json → Option (List String)
  | [] => some []
  | .str s :: rest => (parseStrList rest).bind fun ss => some (s :: ss)
  | _ :: _ => none

/-- A required `Dict[str, LockEntry]` field. -/
def reqLocks (fs : List (String × Json)) (k : String) :
    Option (List (String × LockEntry)) :=
  match jlookup fs k with
  | some (.obj lfs) => parseLocksList lfs
  | _ => none

/-- A required `List[str]` field. -/
def reqStrListField (fs : List (String × Json)) (k : String) :
    Option (List String) :=
  match jlookup fs k with
  | some (.arr ws) => parseStrList ws
  | _ => none

/-- A `List[str] = []` field: absent gives the default `[]`. -/
def defStrListField (fs : List (String × Json)) (k : String) :
    Option (List String) :=
  match jlookup fs k with
  | none => some []
  | some (.arr ws) => parseStrList ws
  | some _ => none

/-- An `Optional[OrchestrationCommand] = None` field. -/
def optOrch (fs : List (String × Json)) (k : String) :
    Option (Option OrchestrationCommand) :=
  match jlookup fs k with
  | none => some none
  | some .null => some none
  | some oj => (parseOrch oj).map some

/-- `CheckStatusResponse(**data)`: validation of the whole body. -/
def parseCheck (j : Json) : Option CheckStatusResponse :=
  match j with
  | .obj fs =>
    (reqStrIn fs "status" ["OK", "STALE", "CONFLICT", "OFFLINE"]).bind fun status =>
    (reqStr fs "repo_head").bind fun repo_head =>
    (reqLocks fs "locks").bind fun locks =>
    (reqStrListField fs "warnings").bind fun warnings =>
    (optOrch fs "orchestration").bind fun orchestration =>
    some { status := status, repo_head := repo_head, locks := locks,
           warnings := warnings, orchestration := orchestration }
  | _ => none

/-- `PostStatusResponse(**data)`: validation of the whole body. -/
def parsePost (j : Json) : Option PostStatusResponse :=
  match j with
  | .obj fs =>
    (reqBool fs "success").bind fun success =>
    (defStrListField fs "orphaned_dependencies").bind fun orphaned =>
    (optOrch fs "orchestration").bind fun orchestration =>
    some { success := success, orphaned_dependencies := orphaned,
           orchestration := orchestration }
  | _ => none

/-! ### Serialization (`model_dump()`) -/

/-- Dump of an `Optional[str]` value. -/
def dumpOptStr : Option String → Json
  | none => .null
  | some s => .str s

/-- Dump of an `Optional[Dict[str, Any]]` value. -/
def dumpOptObj : Option (List (String × Json)) → Json
  | none => .null
  | some mfs => .obj mfs

/-- `model_dump()` of an `OrchestrationCommand` (enum rendered by its
string value). -/
def dumpOrch (c : OrchestrationCommand) : Json :=
  .obj [("type", .str c.type),
        ("action", .str c.action.val),
        ("command", dumpOptStr c.command),
        ("reason", .str c.reason),
        ("metadata", dumpOptObj c.metadata)]

/-- `model_dump()` of a `LockEntry`. -/
def dumpLockEntry (e : LockEntry) : Json :=
  .obj [("user", .str e.user),
        ("status", .str e.status),
        ("lock_type", .str e.lock_type),
        ("timestamp", .num e.timestamp),
        ("message", dumpOptStr e.message)]

/-- Dump of an `Optional[OrchestrationCommand]` value. -/
def dumpOptOrch : Option OrchestrationCommand → Json
  | none => .null
  | some c => dumpOrch c

/-- `model_dump()` of a `CheckStatusResponse`. -/
def dumpCheck (r : CheckStatusResponse) : Json :=
  .obj [("status", .str r.status),
        ("repo_head", .str r.repo_head),
        ("locks", .obj (r.locks.map fun p => (p.1, dumpLockEntry p.2))),
        ("warnings", .arr (r.warnings.map .str)),
        ("orchestration", dumpOptOrch r.orchestration)]

/-- `model_dump()` of a `PostStatusResponse`. -/
def dumpPost (r : PostStatusResponse) : Json :=
  .obj [("success", .bool r.success),
        ("orphaned_dependencies", .arr (r.orphaned_dependencies.map .str)),
        ("orchestration", dumpOptOrch r.orchestration)]

/-! ## `src/tools.py` -/

/-- `VERCEL_URL`: `os.getenv("VERCEL_API_URL", ...)`; we model the default
used when the environment variable is unset. -/
def VERCEL_URL : String := "https://relay_devfest.vercel.app"

/-- The single outbound `client.post(...)` call, as constructed by an
endpoint before any network activity. -/
structure HttpRequest where
  url : String
  headers : List (String × String)
  body : Json
  timeout : Rat
deriving Repr

/-- Python exceptions that the endpoints can observe or propagate.
`connectError` = `httpx.ConnectError`, `timeoutException` =
`httpx.TimeoutException`, `httpStatusError s` = the
`httpx.HTTPStatusError` raised by `resp.raise_for_status()` on status `s`,
`jsonDecodeError` = the exception raised by `resp.json()` on a non-JSON
body, `validationError` = pydantic's `ValidationError` (or the `TypeError`
from `Model(**data)` on a non-dict body), `other m` = any other exception
with message `m`. -/
inductive PyExn where
  | connectError
  | timeoutException
  | httpStatusError (status : Nat)
  | jsonDecodeError
  | validationError
  | other (msg : String)
deriving Repr, DecidableEq

/-- `str(e)`: the message text of an exception, abstracted per class. -/
def PyExn.message : PyExn → String
  | .connectError => "Connection error"
  | .timeoutException => "Timed out"
  | .httpStatusError status => "HTTP status error " ++ toString status
  | .jsonDecodeError => "Expecting value"
  | .validationError => "validation error"
  | .other m => m

/-- Outcome of the single outbound call: the connection failed, it timed
out, a response arrived (with `body = none` when the body is not valid
JSON), or the call raised some other exception. -/
inductive HttpOutcome where
  | connectError
  | timeout
  | response (status : Nat) (body : Option Json)
  | otherError (msg : String)
deriving Repr

/-- Arguments of `check_status`. -/
structure CheckArgs where
  username : String
  file_paths : List String
  agent_head : String
  repo_url : String
  branch : String := "main"
deriving Repr

/-- Arguments of `post_status`. -/
structure PostArgs where
  username : String
  file_paths : List String
  status : String
  message : String
  agent_head : String
  repo_url : String
  branch : String := "main"
  new_repo_head : Option String := none
deriving Repr

/-- The outbound request built by `check_status`. -/
def checkRequest (a : CheckArgs) : HttpRequest :=
  { url := VERCEL_URL ++ "/api/check_status",
    headers := [("x-github-username", (get_user_from_username a.username).login)],
    body := .obj [("file_paths", .arr (a.file_paths.map .str)),
                  ("agent_head", .str a.agent_head),
                  ("repo_url", .str a.repo_url),
                  ("branch", .str a.branch)],
    timeout := 5 }

/-- The outbound request built by `post_status`. -/
def postRequest (a : PostArgs) : HttpRequest :=
  { url := VERCEL_URL ++ "/api/post_status",
    headers := [("x-github-username", (get_user_from_username a.username).login)],
    body := .obj [("file_paths", .arr (a.file_paths.map .str)),
                  ("status", .str a.status),
                  ("message", .str a.message),
                  ("agent_head", .str a.agent_head),
                  ("new_repo_head", match a.new_repo_head with
                                    | none => .null
                                    | some s => .str s),
                  ("repo_url", .str a.repo_url),
                  ("branch", .str a.branch)],
    timeout := 5 }

/-- The fixed offline fallback built by `check_status` on
connect/timeout. -/
def offlineCheckResponse : CheckStatusResponse :=
  { status := "OFFLINE",
    repo_head := "unknown",
    locks := [],
    warnings := ["OFFLINE_MODE: Vercel Unreachable"],
    orchestration := some { action := .SWITCH_TASK, reason := "System Offline" } }

/-- The fixed conflict fallback built by `post_status` on HTTP 409. -/
def conflictPostResponse : PostStatusResponse :=
  { success := false,
    orchestration := some { action := .WAIT,
                            reason := "Conflict: File locked by another user" } }

/-- The fixed offline fallback built by `post_status` on
connect/timeout. -/
def offlinePostResponse : PostStatusResponse :=
  { success := false,
    orchestration := some { action := .STOP,
                            reason := "Vercel Offline - Cannot Acquire Lock" } }

/-- The fallback built by `post_status`'s final `except Exception as e`. -/
def errorPostResponse (e : PyExn) : PostStatusResponse :=
  { success := false,
    orchestration := some { action := .STOP,
                            reason := "Error: " ++ e.message } }

/-- Body of `check_status`'s `try` block: `raise_for_status()` (2xx is
`is_success`), then `resp.json()`, then validation, then
`model_dump()`.  `.error e` means exception `e` is raised. -/
def checkTry (o : HttpOutcome) : Except PyExn Json :=
  match o with
  | .connectError => .error .connectError
  | .timeout => .error .timeoutException
  | .otherError m => .error (.other m)
  | .response status body =>
    if 200 ≤ status ∧ status < 300 then
      match body with
      | none => .error .jsonDecodeError
      | some j =>
        match parseCheck j with
        | none => .error .validationError
        | some r => .ok (dumpCheck r)
    else .error (.httpStatusError status)

/-- Body of `post_status`'s `try` block: the 409 check comes before
`raise_for_status()`. -/
def postTry (o : HttpOutcome) : Except PyExn Json :=
  match o with
  | .connectError => .error .connectError
  | .timeout => .error .timeoutException
  | .otherError m => .error (.other m)
  | .response status body =>
    if status = 409 then .ok (dumpPost conflictPostResponse)
    else if 200 ≤ status ∧ status < 300 then
      match body with
      | none => .error .jsonDecodeError
      | some j =>
        match parsePost j with
        | none => .error .validationError
        | some r => .ok (dumpPost r)
    else .error (.httpStatusError status)

/-- `check_status`: only `httpx.ConnectError` and `httpx.TimeoutException`
are caught; every other exception escapes to the caller. -/
def checkStatusResult (a : CheckArgs) (o : HttpOutcome) : Except PyExn Json :=
  match checkTry o with
  | .error .connectError => .ok (dumpCheck offlineCheckResponse)
  | .error .timeoutException => .ok (dumpCheck offlineCheckResponse)
  | r => r

/-- `post_status`: connect/timeout are caught first, then a catch-all
`except Exception` converts every other exception into the error
payload. -/
def postStatusResult (a : PostArgs) (o : HttpOutcome) : Except PyExn Json :=
  match postTry o with
  | .error .connectError => .ok (dumpPost offlinePostResponse)
  | .error .timeoutException => .ok (dumpPost offlinePostResponse)
  | .error e => .ok (dumpPost (errorPostResponse e))
  | .ok j => .ok j

/-- One invocation of `check_status`: the list of outbound requests it
attempts (always exactly the one `client.post`) paired with its result. -/
def checkStatusRun (a : CheckArgs) (o : HttpOutcome) :
    List HttpRequest × Except PyExn Json :=
  ([checkRequest a], checkStatusResult a o)

/-- One invocation of `post_status`. -/
def postStatusRun (a : PostArgs) (o : HttpOutcome) :
    List HttpRequest × Except PyExn Json :=
  ([postRequest a], postStatusResult a o)

/-! ## Concrete sample inputs used by witnesses and counterexamples -/

/-- Sample `check_status` arguments. -/
def exCheckArgs : CheckArgs :=
  { username := "octocat",
    file_paths := ["src/auth.ts", "src/db.ts"],
    agent_head := "a1b2c3",
    repo_url := "https://example.com/repo.git" }

/-- Sample `post_status` arguments. -/
def exPostArgs : PostArgs :=
  { username := "octocat",
    file_paths := ["src/auth.ts"],
    status := "WRITING",
    message := "editing auth",
    agent_head := "a1b2c3",
    repo_url := "https://example.com/repo.git" }

/-! ## Fully-explicit bodies

A remote JSON body is *explicit* for a schema when it lists every schema
field, in schema declaration order, with lock entries and the
orchestration command themselves explicit.  On such bodies validation
followed by `model_dump()` is the identity; on other accepted bodies the
dump fills the schema defaults in (and drops unknown keys). -/

/-- A JSON value listing exactly the `OrchestrationCommand` fields. -/
def OrchSpine (j : Json) : Prop :=
  ∃ tv av cv rv mv,
    j = .obj [("type", tv), ("action", av), ("command", cv),
              ("reason", rv), ("metadata", mv)]

/-- A JSON value listing exactly the `LockEntry` fields. -/
def LockSpine (j : Json) : Prop :=
  ∃ uv sv tv pv mv,
    j = .obj [("user", uv), ("status", sv), ("lock_type", tv),
              ("timestamp", pv), ("message", mv)]

/-- A JSON value listing exactly the `CheckStatusResponse` fields, with
explicit lock entries and an explicit (or `null`) orchestration command. -/
def CheckSpine (j : Json) : Prop :=
  ∃ sv rv lks wv ov,
    j = .obj [("status", sv), ("repo_head", rv), ("locks", .obj lks),
              ("warnings", wv), ("orchestration", ov)] ∧
    (∀ p ∈ lks, LockSpine p.2) ∧ (ov = .null ∨ OrchSpine ov)

/-- A JSON value listing exactly the `PostStatusResponse` fields, with an
explicit (or `null`) orchestration command. -/
def PostSpine (j : Json) : Prop :=
  ∃ sv dv ov,
    j = .obj [("success", sv), ("orphaned_dependencies", dv),
              ("orchestration", ov)] ∧
    (ov = .null ∨ OrchSpine ov)

/-! ## Schema-key predicates (claim C10) -/

/-- A JSON value that is `null` or an orchestration-command dict with all
five schema keys and `type = "orchestration_command"`. -/
def orchOkB (j : Json) : Bool :=
  match j with
  | .null => true
  | .obj fs =>
    (match jlookup fs "type" with
     | some (.str t) => t == "orchestration_command"
     | _ => false) &&
    hasKey fs "action" && hasKey fs "command" &&
    hasKey fs "reason" && hasKey fs "metadata"
  | _ => false

/-- A JSON dict with all `CheckStatusResponse` schema keys and a
well-formed orchestration value. -/
def checkKeysOk (j : Json) : Bool :=
  match j with
  | .obj fs =>
    hasKey fs "status" && hasKey fs "repo_head" && hasKey fs "locks" &&
    hasKey fs "warnings" &&
    (match jlookup fs "orchestration" with
     | some ov => orchOkB ov
     | none => false)
  | _ => false

/-- A JSON dict with all `PostStatusResponse` schema keys and a
well-formed orchestration value. -/
def postKeysOk (j : Json) : Bool :=
  match j with
  | .obj fs =>
    hasKey fs "success" && hasKey fs "orphaned_dependencies" &&
    (match jlookup fs "orchestration" with
     | some ov => orchOkB ov
     | none => false)
  | _ => false

/-! ## Claims -/

/-- C3: on a connection error or a timeout of the outbound call,
`check_status` returns the fixed offline payload — status `"OFFLINE"`,
`repo_head` `"unknown"`, empty locks, the single offline warning, and a
`SWITCH_TASK` orchestration command with reason `"System Offline"` —
independent of the input arguments. -/
theorem check_status_offline_default (a : CheckArgs) :
    checkStatusResult a .connectError =
      .ok (.obj [("status", .str "OFFLINE"),
                 ("repo_head", .str "unknown"),
                 ("locks", .obj []),
                 ("warnings", .arr [.str "OFFLINE_MODE: Vercel Unreachable"]),
                 ("orchestration",
                  .obj [("type", .str "orchestration_command"),
                        ("action", .str "SWITCH_TASK"),
                        ("command", .null),
                        ("reason", .str "System Offline"),
                        ("metadata", .null)])]) ∧
    checkStatusResult a .timeout =
      .ok (.obj [("status", .str "OFFLINE"),
                 ("repo_head", .str "unknown"),
                 ("locks", .obj []),
                 ("warnings", .arr [.str "OFFLINE_MODE: Vercel Unreachable"]),
                 ("orchestration",
                  .obj [("type", .str "orchestration_command"),
                        ("action", .str "SWITCH_TASK"),
                        ("command", .null),
                        ("reason", .str "System Offline"),
                        ("metadata", .null)])]) :=
  ⟨rfl, rfl⟩

/-- C4: on a connection error or a timeout of the outbound call,
`post_status` returns the fixed offline payload — success `false`, empty
`orphaned_dependencies`, and a `STOP` orchestration command with reason
`"Vercel Offline - Cannot Acquire Lock"` — independent of the input
arguments. -/
theorem post_status_offline_default (a : PostArgs) :
    postStatusResult a .connectError =
      .ok (.obj [("success", .bool false),
                 ("orphaned_dependencies", .arr []),
                 ("orchestration",
                  .obj [("type", .str "orchestration_command"),
                        ("action", .str "STOP"),
                        ("command", .null),
                        ("reason", .str "Vercel Offline - Cannot Acquire Lock"),
                        ("metadata", .null)])]) ∧
    postStatusResult a .timeout =
      .ok (.obj [("success", .bool false),
                 ("orphaned_dependencies", .arr []),
                 ("orchestration",
                  .obj [("type", .str "orchestration_command"),
                        ("action", .str "STOP"),
                        ("command", .null),
                        ("reason", .str "Vercel Offline - Cannot Acquire Lock"),
                        ("metadata", .null)])]) :=
  ⟨rfl, rfl⟩

/-- C5: on an HTTP 409 answer, `post_status` returns the fixed conflict
payload — success `false` and a `WAIT` orchestration command with reason
`"Conflict: File locked by another user"` — for every input and every
response body. -/
theorem post_status_conflict_default (a : PostArgs) (body : Option Json) :
    postStatusResult a (.response 409 body) =
      .ok (.obj [("success", .bool false),
                 ("orphaned_dependencies", .arr []),
                 ("orchestration",
                  .obj [("type", .str "orchestration_command"),
                        ("action", .str "WAIT"),
                        ("command", .null),
                        ("reason", .str "Conflict: File locked by another user"),
                        ("metadata", .null)])]) :=
  rfl

/-- C6: every invocation of either endpoint attempts exactly one outbound
HTTP request (so at most one, with no retry in any execution), and that
request carries the fixed timeout of 5.0 seconds. -/
theorem single_request_fixed_timeout (a : CheckArgs) (p : PostArgs)
    (o o' : HttpOutcome) :
    (checkStatusRun a o).1 = [checkRequest a] ∧
    (checkRequest a).timeout = 5 ∧
    (postStatusRun p o').1 = [postRequest p] ∧
    (postRequest p).timeout = 5 :=
  ⟨rfl, rfl, rfl, rfl⟩

/-- C7: `get_user_from_username(username).login` equals `username`, and
the `x-github-username` header sent by both endpoints is exactly the
caller-supplied username, untransformed. -/
theorem username_passthrough (u : String) (a : CheckArgs) (p : PostArgs) :
    (get_user_from_username u).login = u ∧
    (checkRequest a).headers = [("x-github-username", a.username)] ∧
    (postRequest p).headers = [("x-github-username", p.username)] :=
  ⟨rfl, rfl, rfl⟩

/-- C9: the dict `post_status` returns on an HTTP 409 answer does not
depend on the 409 response body (including non-JSON bodies, modelled as
`none`). -/
theorem post_status_conflict_body_independent (a : PostArgs)
    (b1 b2 : Option Json) :
    postStatusResult a (.response 409 b1) = postStatusResult a (.response 409 b2) :=
  rfl

/-- C2 counterexample: an HTTP 409 answer to `check_status` is not mapped
to any default payload — the `httpx.HTTPStatusError` raised by
`raise_for_status()` escapes to the caller. -/
theorem conflict_escapes_check_status :
    checkStatusResult exCheckArgs (.response 409 (some (.obj []))) =
      .error (.httpStatusError 409) :=
  rfl

/-- C2 (amended): connection/timeout failures are mapped to the fixed
default payloads by both endpoints and never escape, and HTTP 409 is
mapped to the fixed conflict payload by `post_status`; in `check_status`
a 409 answer (like any non-2xx status) raises an HTTP status error. -/
theorem failure_mapping_defaults (a : CheckArgs) (p : PostArgs)
    (b : Option Json) :
    checkStatusResult a .connectError = .ok (dumpCheck offlineCheckResponse) ∧
    checkStatusResult a .timeout = .ok (dumpCheck offlineCheckResponse) ∧
    postStatusResult p .connectError = .ok (dumpPost offlinePostResponse) ∧
    postStatusResult p .timeout = .ok (dumpPost offlinePostResponse) ∧
    postStatusResult p (.response 409 b) = .ok (dumpPost conflictPostResponse) ∧
    checkStatusResult a (.response 409 b) = .error (.httpStatusError 409) :=
  ⟨rfl, rfl, rfl, rfl, rfl, rfl⟩

/-! ## Roundtrip lemmas -/

/-- Enum members dump back to the string they were parsed from. -/
theorem parseAction_val {s : String} {act : OrchestrationAction}
    (h : parseAction s = some act) : act.val = s := by
  unfold parseAction at h
  split at h <;> simp_all [OrchestrationAction.val] <;> rw [← h]

/-- Inversion: a required string field present with value `v` parses only
when `v` is that string. -/
theorem reqStr_inv {fs : List (String × Json)} {k s : String} {v : Json}
    (hv : jlookup fs k = some v) (h : reqStr fs k = some s) : v = .str s := by
  unfold reqStr at h
  rw [hv] at h
  cases v <;> simp_all

/-- Inversion for a `Literal`-constrained string field. -/
theorem reqStrIn_inv {fs : List (String × Json)} {k s : String}
    {allowed : List String} {v : Json}
    (hv : jlookup fs k = some v) (h : reqStrIn fs k allowed = some s) :
    v = .str s := by
  unfold reqStrIn at h
  simp only [Option.bind_eq_some] at h
  obtain ⟨s0, h0, h1⟩ := h
  have := reqStr_inv hv h0
  split at h1 <;> simp_all

/-- Inversion for a required number field. -/
theorem reqNum_inv {fs : List (String × Json)} {k : String} {q : Rat} {v : Json}
    (hv : jlookup fs k = some v) (h : reqNum fs k = some q) : v = .num q := by
  unfold reqNum at h
  rw [hv] at h
  cases v <;> simp_all

/-- Inversion for a required boolean field. -/
theorem reqBool_inv {fs : List (String × Json)} {k : String} {b : Bool} {v : Json}
    (hv : jlookup fs k = some v) (h : reqBool fs k = some b) : v = .bool b := by
  unfold reqBool at h
  rw [hv] at h
  cases v <;> simp_all

/-- Inversion for an optional string field that is present: its dump
reproduces the original JSON value. -/
theorem optStr_inv {fs : List (String × Json)} {k : String} {co : Option String}
    {v : Json} (hv : jlookup fs k = some v) (h : optStr fs k = some co) :
    dumpOptStr co = v := by
  unfold optStr at h
  rw [hv] at h
  cases v <;> simp at h <;> simp [dumpOptStr, ← h]

/-- Inversion for an optional object field that is present. -/
theorem optObjFields_inv {fs : List (String × Json)} {k : String}
    {md : Option (List (String × Json))} {v : Json}
    (hv : jlookup fs k = some v) (h : optObjFields fs k = some md) :
    dumpOptObj md = v := by
  unfold optObjFields at h
  rw [hv] at h
  cases v <;> simp at h <;> simp [dumpOptObj, ← h]

/-- Inversion for the `type` literal field when present. -/
theorem parseTypeField_inv {fs : List (String × Json)} {typ : String} {v : Json}
    (hv : jlookup fs "type" = some v) (h : parseTypeField fs = some typ) :
    v = .str "orchestration_command" ∧ typ = "orchestration_command" := by
  unfold parseTypeField at h
  rw [hv] at h
  cases v <;> simp_all

/-- On an explicit orchestration object, validate-then-dump is the
identity. -/
theorem orch_roundtrip {j : Json} {c : OrchestrationCommand}
    (hs : OrchSpine j) (h : parseOrch j = some c) : dumpOrch c = j := by
  obtain ⟨tv, av, cv, rv, mv, rfl⟩ := hs
  simp only [parseOrch, Option.bind_eq_some, Option.some.injEq] at h
  obtain ⟨typ, htyp, as, has, act, hact, cmd, hcmd, rsn, hrsn, md, hmd, hc⟩ := h
  subst hc
  have e1 := parseTypeField_inv (v := tv) (by simp [jlookup]) htyp
  have e2 := reqStr_inv (v := av) (by simp [jlookup]) has
  have e3 := parseAction_val hact
  have e4 := optStr_inv (v := cv) (by simp [jlookup]) hcmd
  have e5 := reqStr_inv (v := rv) (by simp [jlookup]) hrsn
  have e6 := optObjFields_inv (v := mv) (by simp [jlookup]) hmd
  subst e2 e5
  simp [dumpOrch, e1.1, e1.2, e3, e4, e6]

/-- On an explicit lock-entry object, validate-then-dump is the
identity. -/
theorem lock_roundtrip {j : Json} {e : LockEntry}
    (hs : LockSpine j) (h : parseLockEntry j = some e) : dumpLockEntry e = j := by
  obtain ⟨uv, sv, tv, pv, mv, rfl⟩ := hs
  simp only [parseLockEntry, Option.bind_eq_some, Option.some.injEq] at h
  obtain ⟨user, hu, st, hst, lt, hlt, ts, hts, msg, hmsg, he⟩ := h
  subst he
  have e1 := reqStr_inv (v := uv) (by simp [jlookup]) hu
  have e2 := reqStrIn_inv (v := sv) (by simp [jlookup]) hst
  have e3 := reqStrIn_inv (v := tv) (by simp [jlookup]) hlt
  have e4 := reqNum_inv (v := pv) (by simp [jlookup]) hts
  have e5 := optStr_inv (v := mv) (by simp [jlookup]) hmsg
  subst e1 e2 e3 e4
  simp [dumpLockEntry, e5]

/-- Dumping a validated locks dict whose entries are all explicit gives
back the original field list. -/
theorem locks_roundtrip {lks : List (String × Json)}
    {es : List (String × LockEntry)}
    (hs : ∀ p ∈ lks, LockSpine p.2) (h : parseLocksList lks = some es) :
    es.map (fun p => (p.1, dumpLockEntry p.2)) = lks := by
  induction lks generalizing es with
  | nil =>
    simp only [parseLocksList, Option.some.injEq] at h
    subst h
    simp
  | cons p rest ih =>
    obtain ⟨k, v⟩ := p
    simp only [parseLocksList, Option.bind_eq_some, Option.some.injEq] at h
    obtain ⟨e, he, es0, hes0, rfl⟩ := h
    have h1 := lock_roundtrip (hs (k, v) (by simp)) he
    have h2 := ih (fun q hq => hs q (List.mem_cons_of_mem _ hq)) hes0
    simp [h1, h2]

/-- Dumping a validated `List[str]` gives back the original array
elements. -/
theorem strlist_roundtrip {ws : List Json} {ss : List String}
    (h : parseStrList ws = some ss) : ss.map Json.str = ws := by
  induction ws generalizing ss with
  | nil =>
    simp only [parseStrList, Option.some.injEq] at h
    subst h
    simp
  | cons w rest ih =>
    cases w
    case str s =>
      simp only [parseStrList, Option.bind_eq_some, Option.some.injEq] at h
      obtain ⟨ss0, hss0, rfl⟩ := h
      simp [ih hss0]
    all_goals simp [parseStrList] at h

/-- Inversion for the `locks` dict field. -/
theorem reqLocks_inv {fs lks : List (String × Json)} {k : String}
    {locks : List (String × LockEntry)}
    (hv : jlookup fs k = some (.obj lks)) (h : reqLocks fs k = some locks) :
    parseLocksList lks = some locks := by
  unfold reqLocks at h
  rw [hv] at h
  exact h

/-- Inversion for a required `List[str]` field: the original value is the
dump of the parsed list. -/
theorem reqStrListField_inv {fs : List (String × Json)} {k : String}
    {ss : List String} {v : Json}
    (hv : jlookup fs k = some v) (h : reqStrListField fs k = some ss) :
    v = .arr (ss.map Json.str) := by
  unfold reqStrListField at h
  rw [hv] at h
  cases v <;> simp_all
  exact (strlist_roundtrip h).symm

/-- Inversion for an `Optional[OrchestrationCommand]` field that is
present: either it was `null` and parsed to `None`, or it parsed to a
command. -/
theorem optOrch_inv {fs : List (String × Json)} {k : String}
    {oc : Option OrchestrationCommand} {v : Json}
    (hv : jlookup fs k = some v) (h : optOrch fs k = some oc) :
    (v = .null ∧ oc = none) ∨ ∃ c, oc = some c ∧ parseOrch v = some c := by
  unfold optOrch at h
  rw [hv] at h
  revert h
  cases v <;> intro h
  case null => simp at h; exact Or.inl ⟨rfl, h.symm⟩
  case obj fs0 =>
    rw [Option.map_eq_some'] at h
    obtain ⟨c, hc, rfl⟩ := h
    exact Or.inr ⟨c, rfl, hc⟩
  all_goals simp [parseOrch] at h

/-- On an explicit `check_status` body, validate-then-dump is the
identity. -/
theorem check_roundtrip {j : Json} {r : CheckStatusResponse}
    (hs : CheckSpine j) (h : parseCheck j = some r) : dumpCheck r = j := by
  obtain ⟨sv, rv, lks, wv, ov, rfl, hlks, hov⟩ := hs
  simp only [parseCheck, Option.bind_eq_some, Option.some.injEq] at h
  obtain ⟨st, hst, rh, hrh, locks, hlocks, warns, hw, orch, horch, he⟩ := h
  subst he
  have e1 := reqStrIn_inv (v := sv) (by simp [jlookup]) hst
  have e2 := reqStr_inv (v := rv) (by simp [jlookup]) hrh
  have e3 := @reqLocks_inv _ lks _ _ (by simp [jlookup]) hlocks
  have e4 := reqStrListField_inv (v := wv) (by simp [jlookup]) hw
  have e5 := optOrch_inv (v := ov) (by simp [jlookup]) horch
  subst e1 e2 e4
  have hlocksdump := locks_roundtrip hlks e3
  rcases e5 with ⟨rfl, rfl⟩ | ⟨c, rfl, hpc⟩
  · simp [dumpCheck, dumpOptOrch, hlocksdump]
  · rcases hov with rfl | hspine
    · simp [parseOrch] at hpc
    · simp [dumpCheck, dumpOptOrch, hlocksdump, orch_roundtrip hspine hpc]

/-- On an explicit `post_status` body, validate-then-dump is the
identity. -/
theorem post_roundtrip {j : Json} {r : PostStatusResponse}
    (hs : PostSpine j) (h : parsePost j = some r) : dumpPost r = j := by
  obtain ⟨sv, dv, ov, rfl, hov⟩ := hs
  simp only [parsePost, Option.bind_eq_some, Option.some.injEq] at h
  obtain ⟨b, hb, deps, hdeps, orch, horch, he⟩ := h
  subst he
  have e1 := reqBool_inv (v := sv) (by simp [jlookup]) hb
  have e2 : dv = .arr (deps.map Json.str) := by
    unfold defStrListField at hdeps
    rw [show jlookup [("success", sv), ("orphaned_dependencies", dv),
          ("orchestration", ov)] "orphaned_dependencies" = some dv from by
        simp [jlookup]] at hdeps
    cases dv <;> simp_all
    exact (strlist_roundtrip hdeps).symm
  have e3 := optOrch_inv (v := ov) (by simp [jlookup]) horch
  subst e1 e2
  rcases e3 with ⟨rfl, rfl⟩ | ⟨c, rfl, hpc⟩
  · simp [dumpPost, dumpOptOrch]
  · rcases hov with rfl | hspine
    · simp [parseOrch] at hpc
    · simp [dumpPost, dumpOptOrch, orch_roundtrip hspine hpc]

/-- C1 counterexample: a 2xx body accepted by the response model is not
always returned unchanged — `{"success": true}` comes back with the
defaults `orphaned_dependencies = []` and `orchestration = null` filled
in, so the returned dict differs from the received body. -/
theorem passthrough_counterexample :
    postStatusResult exPostArgs
        (.response 200 (some (.obj [("success", .bool true)]))) =
      .ok (.obj [("success", .bool true),
                 ("orphaned_dependencies", .arr []),
                 ("orchestration", .null)]) ∧
    Json.obj [("success", .bool true)] ≠
      Json.obj [("success", .bool true),
                ("orphaned_dependencies", .arr []),
                ("orchestration", .null)] :=
  ⟨rfl, by simp⟩

/-- C1 (amended): a successful (2xx, validated) response is returned as
the received body with schema defaults filled in for omitted optional
fields and unknown keys dropped; whenever the body explicitly lists every
schema field (recursively, for lock entries and the orchestration
command), both `check_status` and `post_status` return exactly the body
they received, including any orchestration command in it. -/
theorem success_passthrough :
    (∀ (a : CheckArgs) (s : Nat) (j : Json) (r : CheckStatusResponse),
        200 ≤ s → s < 300 → CheckSpine j → parseCheck j = some r →
        checkStatusResult a (.response s (some j)) = .ok j) ∧
    (∀ (a : PostArgs) (s : Nat) (j : Json) (r : PostStatusResponse),
        200 ≤ s → s < 300 → PostSpine j → parsePost j = some r →
        postStatusResult a (.response s (some j)) = .ok j) := by
  constructor
  · intro a s j r h1 h2 hspine hparse
    have hd := check_roundtrip hspine hparse
    have ht : checkTry (.response s (some j)) = .ok j := by
      unfold checkTry
      simp [h1, h2, hparse, hd]
    unfold checkStatusResult
    rw [ht]
  · intro a s j r h1 h2 hspine hparse
    have hd := post_roundtrip hspine hparse
    have h409 : ¬s = 409 := by omega
    have ht : postTry (.response s (some j)) = .ok j := by
      unfold postTry
      simp [h1, h2, h409, hparse, hd]
    unfold postStatusResult
    rw [ht]

/-- C1 witness: a concrete fully-explicit check body and post body are
returned unchanged by the endpoints. -/
theorem success_passthrough_witness :
    checkStatusResult exCheckArgs
        (.response 200 (some (.obj
          [("status", .str "OK"),
           ("repo_head", .str "deadbeef"),
           ("locks", .obj
             [("src/auth.ts", .obj
               [("user", .str "octocat"),
                ("status", .str "WRITING"),
                ("lock_type", .str "DIRECT"),
                ("timestamp", .num 17),
                ("message", .null)])]),
           ("warnings", .arr [.str "w1"]),
           ("orchestration", .obj
             [("type", .str "orchestration_command"),
              ("action", .str "PROCEED"),
              ("command", .null),
              ("reason", .str "all clear"),
              ("metadata", .null)])]))) =
      .ok (.obj
          [("status", .str "OK"),
           ("repo_head", .str "deadbeef"),
           ("locks", .obj
             [("src/auth.ts", .obj
               [("user", .str "octocat"),
                ("status", .str "WRITING"),
                ("lock_type", .str "DIRECT"),
                ("timestamp", .num 17),
                ("message", .null)])]),
           ("warnings", .arr [.str "w1"]),
           ("orchestration", .obj
             [("type", .str "orchestration_command"),
              ("action", .str "PROCEED"),
              ("command", .null),
              ("reason", .str "all clear"),
              ("metadata", .null)])]) ∧
    postStatusResult exPostArgs
        (.response 201 (some (.obj
          [("success", .bool true),
           ("orphaned_dependencies", .arr [.str "src/db.ts"]),
           ("orchestration", .null)]))) =
      .ok (.obj
          [("success", .bool true),
           ("orphaned_dependencies", .arr [.str "src/db.ts"]),
           ("orchestration", .null)]) := by
  constructor
  · apply success_passthrough.1 exCheckArgs 200 _
      { status := "OK", repo_head := "deadbeef",
        locks := [("src/auth.ts",
          { user := "octocat", status := "WRITING", lock_type := "DIRECT",
            timestamp := 17, message := none })],
        warnings := ["w1"],
        orchestration := some
          { type := "orchestration_command", action := .PROCEED,
            command := none, reason := "all clear", metadata := none } }
    · omega
    · omega
    · refine ⟨_, _, _, _, _, rfl, ?_, Or.inr ⟨_, _, _, _, _, rfl⟩⟩
      intro p hp
      simp only [List.mem_singleton] at hp
      subst hp
      exact ⟨_, _, _, _, _, rfl⟩
    · rfl
  · apply success_passthrough.2 exPostArgs 201 _
      { success := true, orphaned_dependencies := ["src/db.ts"],
        orchestration := none }
    · omega
    · omega
    · exact ⟨_, _, _, rfl, Or.inl rfl⟩
    · rfl

/-- C8: `post_status` never raises: every outcome of the outbound call
yields a returned dict, and every exception other than connect/timeout —
a non-2xx non-409 status, a non-JSON body, a validation failure, or any
other exception — becomes the error payload (success `false`, action
`STOP`, reason `"Error: " ++` the exception message, as `errorPostResponse`
spells out). -/
theorem post_status_never_raises :
    (∀ (a : PostArgs) (o : HttpOutcome), ∃ j, postStatusResult a o = .ok j) ∧
    (∀ (a : PostArgs) (s : Nat) (b : Option Json),
        ¬(200 ≤ s ∧ s < 300) → ¬s = 409 →
        postStatusResult a (.response s b) =
          .ok (dumpPost (errorPostResponse (.httpStatusError s)))) ∧
    (∀ (a : PostArgs) (s : Nat), 200 ≤ s → s < 300 →
        postStatusResult a (.response s none) =
          .ok (dumpPost (errorPostResponse .jsonDecodeError))) ∧
    (∀ (a : PostArgs) (s : Nat) (j : Json),
        200 ≤ s → s < 300 → parsePost j = none →
        postStatusResult a (.response s (some j)) =
          .ok (dumpPost (errorPostResponse .validationError))) ∧
    (∀ (a : PostArgs) (m : String),
        postStatusResult a (.otherError m) =
          .ok (dumpPost (errorPostResponse (.other m)))) := by
  refine ⟨?_, ?_, ?_, ?_, ?_⟩
  · intro a o
    unfold postStatusResult
    rcases postTry o with e | j
    · cases e <;> exact ⟨_, rfl⟩
    · exact ⟨j, rfl⟩
  · intro a s b h1 h2
    have ht : postTry (.response s b) =
        .error (.httpStatusError s) := by
      simp only [postTry]
      rw [if_neg h2, if_neg h1]
    unfold postStatusResult
    rw [ht]
  · intro a s h1 h2
    have ht : postTry (.response s none) = .error .jsonDecodeError := by
      simp only [postTry]
      rw [if_neg (by omega), if_pos ⟨h1, h2⟩]
    unfold postStatusResult
    rw [ht]
  · intro a s j h1 h2 hp
    have ht : postTry (.response s (some j)) = .error .validationError := by
      simp only [postTry]
      rw [if_neg (by omega), if_pos ⟨h1, h2⟩]
      simp [hp]
    unfold postStatusResult
    rw [ht]
  · intro a m
    rfl

/-- C8 witness: concrete outcomes — HTTP 500, a 2xx non-JSON body, a 2xx
body rejected by validation, and an arbitrary exception — all yield
returned dicts with the error payload. -/
theorem post_status_never_raises_witness :
    (∃ j, postStatusResult exPostArgs (.response 500 none) = .ok j) ∧
    postStatusResult exPostArgs (.response 500 none) =
      .ok (dumpPost (errorPostResponse (.httpStatusError 500))) ∧
    postStatusResult exPostArgs (.response 200 none) =
      .ok (dumpPost (errorPostResponse .jsonDecodeError)) ∧
    postStatusResult exPostArgs (.response 200 (some (.arr []))) =
      .ok (dumpPost (errorPostResponse .validationError)) ∧
    postStatusResult exPostArgs (.otherError "boom") =
      .ok (dumpPost (errorPostResponse (.other "boom"))) :=
  ⟨post_status_never_raises.1 exPostArgs (.response 500 none),
   post_status_never_raises.2.1 exPostArgs 500 none (by omega) (by omega),
   post_status_never_raises.2.2.1 exPostArgs 200 (by omega) (by omega),
   post_status_never_raises.2.2.2.1 exPostArgs 200 (.arr []) (by omega)
     (by omega) rfl,
   post_status_never_raises.2.2.2.2 exPostArgs "boom"⟩

/-- A validated orchestration command always has the literal `type`. -/
theorem parseOrch_type {j : Json} {c : OrchestrationCommand}
    (h : parseOrch j = some c) : c.type = "orchestration_command" := by
  cases j <;> simp [parseOrch] at h
  case obj fs =>
    simp only [Option.bind_eq_some, Option.some.injEq] at h
    obtain ⟨typ, htyp, as, has, act, hact, cmd, hcmd, rsn, hrsn, md, hmd, hc⟩ := h
    subst hc
    unfold parseTypeField at htyp
    split at htyp <;> simp_all

/-- A present-and-validated optional orchestration command has the
literal `type`. -/
theorem optOrch_type {fs : List (String × Json)} {k : String}
    {c : OrchestrationCommand} (h : optOrch fs k = some (some c)) :
    c.type = "orchestration_command" := by
  unfold optOrch at h
  split at h <;> simp_all
  exact parseOrch_type h

/-- Validated check responses carry the literal orchestration `type`. -/
theorem parseCheck_orch_type {j : Json} {r : CheckStatusResponse}
    (h : parseCheck j = some r) {c : OrchestrationCommand}
    (hc : r.orchestration = some c) : c.type = "orchestration_command" := by
  cases j <;> simp [parseCheck] at h
  case obj fs =>
    simp only [Option.bind_eq_some, Option.some.injEq] at h
    obtain ⟨st, hst, rh, hrh, locks, hlocks, warns, hw, orch, horch, he⟩ := h
    subst he
    simp only at hc
    subst hc
    exact optOrch_type horch

/-- Validated post responses carry the literal orchestration `type`. -/
theorem parsePost_orch_type {j : Json} {r : PostStatusResponse}
    (h : parsePost j = some r) {c : OrchestrationCommand}
    (hc : r.orchestration = some c) : c.type = "orchestration_command" := by
  cases j <;> simp [parsePost] at h
  case obj fs =>
    simp only [Option.bind_eq_some, Option.some.injEq] at h
    obtain ⟨b, hb, deps, hdeps, orch, horch, he⟩ := h
    subst he
    simp only at hc
    subst hc
    exact optOrch_type horch

/-- The dump of a command with the literal `type` passes `orchOkB`. -/
theorem orchOkB_dump (c : OrchestrationCommand)
    (h : c.type = "orchestration_command") : orchOkB (dumpOrch c) = true := by
  simp [orchOkB, dumpOrch, hasKey, jlookup, h]

/-- The dump of a check response whose orchestration `type` is the
literal passes `checkKeysOk`. -/
theorem checkKeysOk_dump (r : CheckStatusResponse)
    (h : ∀ c, r.orchestration = some c → c.type = "orchestration_command") :
    checkKeysOk (dumpCheck r) = true := by
  rcases hr : r.orchestration with _ | c
  · simp [checkKeysOk, dumpCheck, hasKey, jlookup, hr, dumpOptOrch, orchOkB]
  · simp [checkKeysOk, dumpCheck, hasKey, jlookup, hr, dumpOptOrch,
      orchOkB_dump c (h c hr)]

/-- The dump of a post response whose orchestration `type` is the literal
passes `postKeysOk`. -/
theorem postKeysOk_dump (r : PostStatusResponse)
    (h : ∀ c, r.orchestration = some c → c.type = "orchestration_command") :
    postKeysOk (dumpPost r) = true := by
  rcases hr : r.orchestration with _ | c
  · simp [postKeysOk, dumpPost, hasKey, jlookup, hr, dumpOptOrch, orchOkB]
  · simp [postKeysOk, dumpPost, hasKey, jlookup, hr, dumpOptOrch,
      orchOkB_dump c (h c hr)]

/-- Every `.ok` result of `check_status`'s try block is the dump of a
validated response. -/
theorem checkTry_ok_shape {o : HttpOutcome} {j : Json}
    (h : checkTry o = .ok j) :
    ∃ rr jb, parseCheck jb = some rr ∧ j = dumpCheck rr := by
  cases o <;> simp [checkTry] at h
  case response s b =>
    split at h
    · cases b <;> simp at h
      case some jb =>
        rcases hp : parseCheck jb with _ | rr <;> rw [hp] at h <;> simp at h
        exact ⟨rr, jb, hp, h.symm⟩
    · simp at h

/-- Every `.ok` result of `post_status`'s try block is the conflict dump
or the dump of a validated response. -/
theorem postTry_ok_shape {o : HttpOutcome} {j : Json}
    (h : postTry o = .ok j) :
    j = dumpPost conflictPostResponse ∨
      ∃ rr jb, parsePost jb = some rr ∧ j = dumpPost rr := by
  cases o <;> simp [postTry] at h
  case response s b =>
    split at h
    · simp only [Except.ok.injEq] at h
      exact Or.inl h.symm
    · split at h
      · cases b <;> simp at h
        case some jb =>
          rcases hp : parsePost jb with _ | rr <;> rw [hp] at h <;> simp at h
          exact Or.inr ⟨rr, jb, hp, h.symm⟩
      · simp at h

/-- C10: every dict either endpoint returns carries all its schema keys —
`status`, `repo_head`, `locks`, `warnings`, `orchestration` for
`check_status`; `success`, `orphaned_dependencies` (defaulting to `[]`
when absent from the remote JSON), `orchestration` for `post_status` —
and every non-null orchestration value carries `type` (equal to
`"orchestration_command"`), `action`, `command`, `reason`, `metadata`. -/
theorem returned_dicts_carry_schema_keys :
    (∀ (a : CheckArgs) (o : HttpOutcome) (j : Json),
        checkStatusResult a o = .ok j → checkKeysOk j = true) ∧
    (∀ (a : PostArgs) (o : HttpOutcome) (j : Json),
        postStatusResult a o = .ok j → postKeysOk j = true) ∧
    (∀ (fs : List (String × Json)) (r : PostStatusResponse),
        jlookup fs "orphaned_dependencies" = none → parsePost (.obj fs) = some r →
        r.orphaned_dependencies = []) := by
  refine ⟨?_, ?_, ?_⟩
  · intro a o j h
    unfold checkStatusResult at h
    rcases ht : checkTry o with e | j0 <;> rw [ht] at h
    · cases e <;> simp at h <;> rw [← h] <;> rfl
    · simp at h
      subst h
      obtain ⟨rr, jb, hp, rfl⟩ := checkTry_ok_shape ht
      exact checkKeysOk_dump rr (fun c hc => parseCheck_orch_type hp hc)
  · intro a o j h
    unfold postStatusResult at h
    rcases ht : postTry o with e | j0 <;> rw [ht] at h
    · cases e <;> simp at h <;> rw [← h] <;> rfl
    · simp at h
      subst h
      rcases postTry_ok_shape ht with rfl | ⟨rr, jb, hp, rfl⟩
      · rfl
      · exact postKeysOk_dump rr (fun c hc => parsePost_orch_type hp hc)
  · intro fs r hnone h
    simp only [parsePost, Option.bind_eq_some, Option.some.injEq] at h
    obtain ⟨b, hb, deps, hdeps, orch, horch, he⟩ := h
    subst he
    unfold defStrListField at hdeps
    rw [hnone] at hdeps
    simp only [Option.some.injEq] at hdeps
    simp [← hdeps]

/-- C10 witness: the offline payloads pass the key checks, and a body
without `orphaned_dependencies` validates to the empty-list default. -/
theorem returned_dicts_carry_schema_keys_witness :
    checkKeysOk (dumpCheck offlineCheckResponse) = true ∧
    postKeysOk (dumpPost offlinePostResponse) = true ∧
    ({ success := true } : PostStatusResponse).orphaned_dependencies = [] :=
  ⟨returned_dicts_carry_schema_keys.1 exCheckArgs .connectError
     (dumpCheck offlineCheckResponse) rfl,
   returned_dicts_carry_schema_keys.2.1 exPostArgs .connectError
     (dumpPost offlinePostResponse) rfl,
   returned_dicts_carry_schema_keys.2.2 [("success", .bool true)]
     { success := true } rfl rfl⟩
